import Mathlib

/-!
Shallow embedding of the multi-server MCP client manager
(`02_mcp_adk_client/mcp_client/manager.py`) and the echo server tool
(`02_mcp_adk_client/servers/echo_server/tools.py`).

Modelling conventions:
- Python dicts (insertion-ordered) are association lists `List (String × α)`;
  `dictInsert` reproduces dict assignment `d[k] = v` (replace in place if the
  key exists, else append at the end).
- A raised Python exception is `Except.error` carrying the message string.
- External effects (spawning processes, JSON-RPC round trips) are oracles:
  a `ConnectStage` per server name saying at which of the three await points
  of `connect_to_all` the attempt raises (if at all), and a `SessionBehavior`
  per session giving the outcome of its `list_tools` and `call_tool` requests.
- `AsyncExitStack` is the list `exit_stack` of entered resources, most recent
  first; `aclose` emits close actions in list order (reverse of acquisition)
  and empties the stack.
- Log output (`logger.warning` / `logger.error`) is modelled as an explicit
  list of message strings where a claim refers to it.
-/

/-- Model of `mcp.StdioServerParameters` as built by `load_config`. -/
structure StdioServerParameters where
  command : String
  args : List String
  env : Option (List (String × String))
deriving DecidableEq, Repr

/-- One entry of the parsed config under `mcpServers`: the fields the code
reads. `command` is accessed as `info["command"]` (raises `KeyError` when
absent), `args` and `env` via `info.get` with defaults. -/
structure ServerInfo where
  command : Option String
  args : Option (List String)
  env : Option (List (String × String))
deriving DecidableEq, Repr

/-- The parsed configuration document: the code reads the key with a default
via `config.get`, so
the top-level key is optional. -/
structure ConfigDoc where
  mcpServers : Option (List (String × ServerInfo))
deriving DecidableEq, Repr

/-- The configuration source as `load_config` encounters it: the file may be
missing (`os.path.exists` false), unparseable (`json.JSONDecodeError`), or
parsed into a document. -/
inductive ConfigSource where
  | missing
  | malformed
  | parsed (doc : ConfigDoc)
deriving DecidableEq, Repr

/-- The errors `load_config` can raise: `FileNotFoundError`, a JSON parse
error, or the `KeyError` on `info["command"]` (re-raised by the generic
handler), tagged with the offending entry name. -/
inductive LoadError where
  | configNotFound
  | configMalformed
  | configInvalid (entryName : String)
deriving DecidableEq, Repr

/-- Python dict assignment `d[k] = v` on an insertion-ordered dict:
an existing key keeps its position and gets the new value, a new key is
appended at the end. -/
def dictInsert (k : String) (v : α) : List (String × α) → List (String × α)
  | [] => [(k, v)]
  | (k₂, v₂) :: rest => if k₂ = k then (k, v) :: rest else (k₂, v₂) :: dictInsert k v rest

/-- Construction of `StdioServerParameters(command=info["command"],
args=info.get("args", []), env=info.get("env"))` once `command` is present. -/
def toParams (info : ServerInfo) (c : String) : StdioServerParameters :=
  { command := c, args := info.args.getD [], env := info.env }

/-- The `for name, info in servers.items()` loop of `load_config`, threading
the mutable `self._server_params` dict. When `info["command"]` is missing the
`KeyError` propagates out of the loop, leaving the dict as mutated so far. -/
def loadEntries : List (String × ServerInfo) → List (String × StdioServerParameters) →
    Except LoadError Unit × List (String × StdioServerParameters)
  | [], acc => (Except.ok (), acc)
  | entry :: rest, acc =>
    match entry.2.command with
    | none => (Except.error (LoadError.configInvalid entry.1), acc)
    | some c => loadEntries rest (dictInsert entry.1 (toParams entry.2 c) acc)

/-- Operation `MCPClientManager.load_config` on a fresh manager (`_server_params`
initially empty): returns the raised error (if any) together with the final
contents of `self._server_params`. -/
def load_config (src : ConfigSource) :
    Except LoadError Unit × List (String × StdioServerParameters) :=
  match src with
  | ConfigSource.missing => (Except.error LoadError.configNotFound, [])
  | ConfigSource.malformed => (Except.error LoadError.configMalformed, [])
  | ConfigSource.parsed doc => loadEntries (doc.mcpServers.getD []) []

/-- Specification-side description of the mapping built from a list of
entries all of which carry a `command`; used to phrase which entries survive
a failing `load_config`. -/
def buildParams (l : List (String × ServerInfo)) : List (String × StdioServerParameters) :=
  l.foldl (fun acc entry =>
    match entry.2.command with
    | none => acc
    | some c => dictInsert entry.1 (toParams entry.2 c) acc) []

/-- Model of `mcp.types.Tool` as consumed by the manager: only `name` and
`description` are read by this code. -/
structure Tool where
  name : String
  description : Option String
deriving DecidableEq, Repr

/-- A content block of a tool result; the consuming code only distinguishes
blocks that carry a `text` attribute. -/
inductive ContentBlock where
  | text (s : String)
  | other
deriving DecidableEq, Repr

/-- Model of `mcp.types.CallToolResult`: ordered content blocks plus the
in-band error flag. -/
structure CallToolResult where
  content : List ContentBlock
  isError : Bool
deriving DecidableEq, Repr

/-- The arguments mapping passed to `call_tool` (string keys; values are kept
abstract strings, the manager never inspects them). -/
abbrev Args := List (String × String)

/-- Oracle for one connected `ClientSession`: the outcome of a `list_tools`
round trip (`Except.error` = the awaited call raises, carrying the message)
and of a `call_tool` round trip for a given tool name and arguments. -/
structure SessionBehavior where
  listToolsResult : Except String (List Tool)
  callToolResult : String → Args → Except String CallToolResult

/-- Oracle for one connection attempt in `connect_to_all`: at which of the
three awaited steps (`stdio_client` enter, `ClientSession` enter,
the handshake request) the attempt raises, if at all. -/
inductive ConnectStage where
  | spawnFail (msg : String)
  | sessionFail (msg : String)
  | initFail (msg : String)
  | ok
deriving DecidableEq, Repr

/-- A resource entered on the `AsyncExitStack`: the transport returned by
`stdio_client(params)` or the `ClientSession` wrapped around it, tagged with
the name of the owning server. -/
inductive Resource where
  | transport (server : String)
  | cliSession (server : String)
deriving DecidableEq, Repr

/-- The mutable state of `MCPClientManager` relevant to connection and
teardown: the `sessions` registry (a dict name → session), the
`AsyncExitStack` contents (most recently entered resource first), and the
warnings logged so far. -/
structure ManagerState where
  sessions : List (String × SessionBehavior)
  exit_stack : List Resource
  warnings : List String

/-- The warning `connect_to_all` logs when a server is skipped. -/
def connectWarning (name msg : String) : String :=
  "Ignoring server " ++ name ++ " because we were not able to connect to it: " ++ msg

/-- One iteration of the `for name, params in self._server_params.items()`
loop of `connect_to_all`: depending on where the attempt raises, the
resources entered before the raise stay on the exit stack, and either the
session joins the registry or a warning is logged. -/
def connectStep (env : String → ConnectStage) (behav : String → SessionBehavior)
    (name : String) (st : ManagerState) : ManagerState :=
  match env name with
  | ConnectStage.spawnFail msg =>
    { st with warnings := st.warnings ++ [connectWarning name msg] }
  | ConnectStage.sessionFail msg =>
    { st with exit_stack := Resource.transport name :: st.exit_stack,
              warnings := st.warnings ++ [connectWarning name msg] }
  | ConnectStage.initFail msg =>
    { st with exit_stack := Resource.cliSession name :: Resource.transport name :: st.exit_stack,
              warnings := st.warnings ++ [connectWarning name msg] }
  | ConnectStage.ok =>
    { st with exit_stack := Resource.cliSession name :: Resource.transport name :: st.exit_stack,
              sessions := dictInsert name (behav name) st.sessions }

/-- The loop of `connect_to_all` over the configured descriptors. -/
def connectLoop (env : String → ConnectStage) (behav : String → SessionBehavior) :
    List (String × StdioServerParameters) → ManagerState → ManagerState
  | [], st => st
  | p :: rest, st => connectLoop env behav rest (connectStep env behav p.1 st)

/-- Operation `MCPClientManager.connect_to_all` on a fresh manager (empty registry,
empty exit stack): every descriptor is attempted, failures are logged and
skipped, successes join the registry. -/
def connect_to_all (env : String → ConnectStage) (behav : String → SessionBehavior)
    (params : List (String × StdioServerParameters)) : ManagerState :=
  connectLoop env behav params { sessions := [], exit_stack := [], warnings := [] }

/-- The `for name, session in self.sessions.items()` loop of
`list_all_tools`, threading the accumulated `all_tools` list and the error
log; the inner `for tool in result.tools` loop appends tool by tool. -/
def listToolsLoop : List (String × SessionBehavior) → List Tool × List String →
    List Tool × List String
  | [], st => st
  | s :: rest, st =>
    match s.2.listToolsResult with
    | Except.ok result =>
      listToolsLoop rest (result.foldl (fun acc tool => acc ++ [tool]) st.1, st.2)
    | Except.error e =>
      listToolsLoop rest (st.1, st.2 ++ ["Failed to list tools for " ++ s.1 ++ ": " ++ e])

/-- Operation `MCPClientManager.list_all_tools`: aggregate the tools of each session in
registry order; a raising `list_tools` is caught, logged (second
component), and contributes nothing. -/
def list_all_tools (sessions : List (String × SessionBehavior)) :
    List Tool × List String :=
  listToolsLoop sessions ([], [])

/-- The outcome of `call_tool`: a returned `CallToolResult`, or the
`ValueError` raised after exhausting the registry. -/
inductive CallOutcome where
  | result (r : CallToolResult)
  | toolNotFound (msg : String)
deriving DecidableEq, Repr

/-- The warning `call_tool` logs when the `try` body raises for a server. -/
def checkWarning (serverName msg : String) : String :=
  "Error checking tools on server " ++ serverName ++ ": " ++ msg

/-- The `for server_name, session in self.sessions.items()` loop of
`call_tool`. The `try` block spans both the `list_tools` query and the
forwarded `call_tool`, so an exception raised by either is caught, logged,
and the loop continues with the next session. -/
def callToolLoop (tool_name : String) (arguments : Args) :
    List (String × SessionBehavior) → List String → CallOutcome × List String
  | [], warns =>
    (CallOutcome.toolNotFound
      ("Tool " ++ tool_name ++ " not found on any active server session."), warns)
  | (server_name, session) :: rest, warns =>
    match session.listToolsResult with
    | Except.error e =>
      callToolLoop tool_name arguments rest (warns ++ [checkWarning server_name e])
    | Except.ok tools =>
      if tools.any (fun t => t.name == tool_name) then
        match session.callToolResult tool_name arguments with
        | Except.ok r => (CallOutcome.result r, warns)
        | Except.error e =>
          callToolLoop tool_name arguments rest (warns ++ [checkWarning server_name e])
      else
        callToolLoop tool_name arguments rest warns

/-- Operation `MCPClientManager.call_tool`: search the registry in order for a session
advertising the tool, forward to the first match, raise `ValueError` when
the registry is exhausted. Returns the outcome and the warnings logged. -/
def call_tool (sessions : List (String × SessionBehavior))
    (tool_name : String) (arguments : Args) : CallOutcome × List String :=
  callToolLoop tool_name arguments sessions []

/-- Operation `MCPClientManager.shutdown`: `exit_stack.aclose()` runs the `__aexit__`
of every entered resource in reverse acquisition order (the stack is kept
most-recent-first, so in list order) and leaves the stack empty. Returns the
sequence of close actions performed and the state afterwards. -/
def shutdown (st : ManagerState) : List Resource × ManagerState :=
  (st.exit_stack, { st with exit_stack := [] })

/-- Specification-side description of the acquisition order of resources
during `connect_to_all`: for each descriptor in order, the transport is
entered first, then the session — except that a spawn failure enters
nothing and a session-construction failure enters only the transport. -/
def acquired (env : String → ConnectStage) (params : List (String × StdioServerParameters)) :
    List Resource :=
  (params.map (fun p =>
    match env p.1 with
    | ConnectStage.spawnFail _ => []
    | ConnectStage.sessionFail _ => [Resource.transport p.1]
    | ConnectStage.initFail _ => [Resource.transport p.1, Resource.cliSession p.1]
    | ConnectStage.ok => [Resource.transport p.1, Resource.cliSession p.1])).flatten

/-- Function `echo` from the echo server tools module: returns the input prefixed
with "Echo: " (Python `f"Echo: {text}"`). -/
def echo (text : String) : String :=
  "Echo: " ++ text

/-- Whether a connection attempt reaches the registry. -/
def isOkStage : ConnectStage → Bool
  | ConnectStage.ok => true
  | _ => false

/-- The warning logged for a failed connection attempt (unused for `ok`). -/
def stageWarning (name : String) : ConnectStage → String
  | ConnectStage.spawnFail m => connectWarning name m
  | ConnectStage.sessionFail m => connectWarning name m
  | ConnectStage.initFail m => connectWarning name m
  | ConnectStage.ok => ""

/-- The tools a session contributes to discovery: its listed tools, or none
when its `list_tools` raises. -/
def toolsOf (s : String × SessionBehavior) : List Tool :=
  match s.2.listToolsResult with
  | Except.ok result => result
  | Except.error _ => []

theorem foldl_push {α : Type} (l : List α) :
    ∀ acc : List α, l.foldl (fun a t => a ++ [t]) acc = acc ++ l := by
  induction l with
  | nil => intro acc; simp
  | cons x xs ih =>
    intro acc
    simp only [List.foldl_cons, ih, List.append_assoc, List.singleton_append]

theorem dictInsert_of_not_mem {α : Type} (k : String) (v : α) :
    ∀ l : List (String × α), (∀ q ∈ l, q.1 ≠ k) → dictInsert k v l = l ++ [(k, v)] := by
  intro l
  induction l with
  | nil => intro _; rfl
  | cons q rest ih =>
    intro h
    have hq : q.1 ≠ k := h q (List.mem_cons_self q rest)
    simp only [dictInsert, if_neg hq, List.cons_append, List.cons.injEq, true_and]
    exact ih (fun r hr => h r (List.mem_cons_of_mem q hr))

theorem listToolsLoop_fst :
    ∀ (l : List (String × SessionBehavior)) (st : List Tool × List String),
      (listToolsLoop l st).1 = st.1 ++ (l.map toolsOf).flatten := by
  intro l
  induction l with
  | nil => intro st; simp [listToolsLoop]
  | cons s rest ih =>
    intro st
    rcases hs : s.2.listToolsResult with e | result
    · simp [listToolsLoop, hs, ih, toolsOf]
    · simp [listToolsLoop, hs, ih, foldl_push, toolsOf, List.append_assoc]

theorem callToolLoop_acc (tool_name : String) (arguments : Args) :
    ∀ (l : List (String × SessionBehavior)) (w : List String),
      callToolLoop tool_name arguments l w =
        ((callToolLoop tool_name arguments l []).1,
         w ++ (callToolLoop tool_name arguments l []).2) := by
  intro l
  induction l with
  | nil => intro w; simp [callToolLoop]
  | cons p rest ih =>
    intro w
    obtain ⟨server_name, session⟩ := p
    rcases hs : session.listToolsResult with e | tools
    · simp only [callToolLoop, hs]
      rw [ih (w ++ [checkWarning server_name e]), ih ([] ++ [checkWarning server_name e])]
      simp
    · simp only [callToolLoop, hs]
      by_cases hany : tools.any (fun t => t.name == tool_name) = true
      · simp only [hany, if_true]
        rcases hc : session.callToolResult tool_name arguments with e | r
        · dsimp only
          rw [ih (w ++ [checkWarning server_name e]), ih ([] ++ [checkWarning server_name e])]
          simp
        · simp
      · simp only [hany, if_false, Bool.false_eq_true]
        rw [ih w, ih []]

theorem connectLoop_stack (env : String → ConnectStage) (behav : String → SessionBehavior) :
    ∀ (params : List (String × StdioServerParameters)) (st : ManagerState),
      (connectLoop env behav params st).exit_stack =
        (acquired env params).reverse ++ st.exit_stack := by
  intro params
  induction params with
  | nil => intro st; simp [connectLoop, acquired]
  | cons p rest ih =>
    intro st
    rcases hp : env p.1 with m | m | m | _ <;>
      simp [connectLoop, connectStep, hp, ih, acquired, List.reverse_append]

theorem connectLoop_warnings (env : String → ConnectStage) (behav : String → SessionBehavior) :
    ∀ (params : List (String × StdioServerParameters)) (st : ManagerState),
      (connectLoop env behav params st).warnings =
        st.warnings ++ (params.filter (fun p => !(isOkStage (env p.1)))).map
          (fun p => stageWarning p.1 (env p.1)) := by
  intro params
  induction params with
  | nil => intro st; simp [connectLoop]
  | cons p rest ih =>
    intro st
    rcases hp : env p.1 with m | m | m | _ <;>
      simp [connectLoop, connectStep, hp, ih, isOkStage, stageWarning, List.filter_cons]

theorem connectLoop_sessions (env : String → ConnectStage) (behav : String → SessionBehavior) :
    ∀ (params : List (String × StdioServerParameters)) (st : ManagerState),
      (∀ p ∈ params, ∀ q ∈ st.sessions, q.1 ≠ p.1) →
      (params.map Prod.fst).Nodup →
      (connectLoop env behav params st).sessions =
        st.sessions ++ (params.filter (fun p => isOkStage (env p.1))).map
          (fun p => (p.1, behav p.1)) := by
  intro params
  induction params with
  | nil => intro st _ _; simp [connectLoop]
  | cons p rest ih =>
    intro st hfresh hnodup
    have hnodup₂ : (rest.map Prod.fst).Nodup := (List.nodup_cons.mp hnodup).2
    have hpnot : p.1 ∉ rest.map Prod.fst := (List.nodup_cons.mp hnodup).1
    rcases hp : env p.1 with m | m | m | _
    · simp only [connectLoop, connectStep, hp]
      rw [ih { st with warnings := st.warnings ++ [connectWarning p.1 m] }
        (fun q hq r hr => hfresh q (List.mem_cons_of_mem p hq) r hr) hnodup₂]
      simp [List.filter_cons, isOkStage, hp]
    · simp only [connectLoop, connectStep, hp]
      rw [ih { st with
                 exit_stack := (Resource.transport p.1 :: st.exit_stack),
                 warnings := st.warnings ++ [connectWarning p.1 m] }
        (fun q hq r hr => hfresh q (List.mem_cons_of_mem p hq) r hr) hnodup₂]
      simp [List.filter_cons, isOkStage, hp]
    · simp only [connectLoop, connectStep, hp]
      rw [ih { st with
                 exit_stack :=
                   Resource.cliSession p.1 :: Resource.transport p.1 :: st.exit_stack,
                 warnings := st.warnings ++ [connectWarning p.1 m] }
        (fun q hq r hr => hfresh q (List.mem_cons_of_mem p hq) r hr) hnodup₂]
      simp [List.filter_cons, isOkStage, hp]
    · simp only [connectLoop, connectStep, hp]
      have hins : dictInsert p.1 (behav p.1) st.sessions = st.sessions ++ [(p.1, behav p.1)] :=
        dictInsert_of_not_mem p.1 (behav p.1) st.sessions
          (fun q hq => hfresh p (List.mem_cons_self p rest) q hq)
      have hfresh₂ : ∀ q ∈ rest, ∀ r ∈ st.sessions ++ [(p.1, behav p.1)], r.1 ≠ q.1 := by
        intro q hq r hr
        rcases List.mem_append.mp hr with hr₁ | hr₂
        · exact hfresh q (List.mem_cons_of_mem p hq) r hr₁
        · have : r = (p.1, behav p.1) := List.mem_singleton.mp hr₂
          subst this
          intro hcontra
          exact hpnot (hcontra ▸ List.mem_map_of_mem Prod.fst hq)
      rw [ih { st with
                 exit_stack :=
                   Resource.cliSession p.1 :: Resource.transport p.1 :: st.exit_stack,
                 sessions := dictInsert p.1 (behav p.1) st.sessions }
        (by simp only [hins]; exact hfresh₂) hnodup₂]
      simp [hins, List.filter_cons, isOkStage, hp, List.append_assoc]

theorem acquired_reverse (env : String → ConnectStage) :
    ∀ params : List (String × StdioServerParameters),
      (acquired env params).reverse =
        (params.reverse.map (fun p =>
          match env p.1 with
          | ConnectStage.spawnFail _ => ([] : List Resource)
          | ConnectStage.sessionFail _ => [Resource.transport p.1]
          | ConnectStage.initFail _ => [Resource.cliSession p.1, Resource.transport p.1]
          | ConnectStage.ok => [Resource.cliSession p.1, Resource.transport p.1])).flatten := by
  intro params
  induction params with
  | nil => rfl
  | cons p rest ih =>
    rcases hp : env p.1 with m | m | m | _ <;>
      simp [acquired, hp, List.reverse_append] <;>
      simpa [acquired] using ih

/-- C8: for every non-empty input string, the underlying function of the echo tool
returns exactly the string "Echo: " followed by the input unchanged: the
result decomposes as the six-character prefix "Echo: " plus the original
characters, so the transform never corrupts the input. -/
theorem echo_preserves_text (text : String) (h : text ≠ "") :
    echo text = "Echo: " ++ text
    ∧ (echo text).data.take 6 = ("Echo: ").data
    ∧ (echo text).data.drop 6 = text.data := by
  refine ⟨rfl, ?_, ?_⟩
  · have hd : (echo text).data = ("Echo: ").data ++ text.data := String.data_append _ _
    have hl : (("Echo: ").data).length = 6 := rfl
    rw [hd, ← hl, List.take_left]
  · have hd : (echo text).data = ("Echo: ").data ++ text.data := String.data_append _ _
    have hl : (("Echo: ").data).length = 6 := rfl
    rw [hd, ← hl, List.drop_left]

/-- Witness for C8 at a concrete non-empty input containing an embedded
quote and backslash. -/
theorem echo_preserves_text_witness :
    ("he\"ll\\o" : String) ≠ ""
    ∧ (echo "he\"ll\\o" = "Echo: " ++ "he\"ll\\o"
       ∧ (echo "he\"ll\\o").data.take 6 = ("Echo: ").data
       ∧ (echo "he\"ll\\o").data.drop 6 = ("he\"ll\\o" : String).data) :=
  ⟨by decide, echo_preserves_text "he\"ll\\o" (by decide)⟩

/-- C10: a configuration document that parses but lacks the top-level
mcpServers key loads successfully into an empty descriptor mapping, and a
subsequent connect_to_all registers zero sessions. -/
theorem load_config_missing_key_empty (doc : ConfigDoc) (h : doc.mcpServers = none) :
    load_config (ConfigSource.parsed doc) = (Except.ok (), [])
    ∧ ∀ (env : String → ConnectStage) (behav : String → SessionBehavior),
        (connect_to_all env behav (load_config (ConfigSource.parsed doc)).2).sessions = [] := by
  constructor
  · simp [load_config, h, loadEntries]
  · intro env behav
    simp [load_config, h, loadEntries, connect_to_all, connectLoop]

/-- Witness for C10 at the concrete document with no mcpServers key. -/
theorem load_config_missing_key_empty_witness :
    (⟨none⟩ : ConfigDoc).mcpServers = none
    ∧ (load_config (ConfigSource.parsed ⟨none⟩) = (Except.ok (), [])
       ∧ ∀ (env : String → ConnectStage) (behav : String → SessionBehavior),
          (connect_to_all env behav (load_config (ConfigSource.parsed ⟨none⟩)).2).sessions = []) :=
  ⟨rfl, load_config_missing_key_empty ⟨none⟩ rfl⟩

/-- C2 counterexample: a parsed configuration whose first entry is valid and
whose second entry lacks the required command field makes load_config fail,
yet the descriptor mapping retains the first entry — the failure leaves a
partly filled mapping, contradicting the all-or-nothing claim. -/
theorem load_config_atomicity_counterexample :
    (load_config (ConfigSource.parsed ⟨some
      [("alpha", ⟨some "python", some ["srv.py"], none⟩),
       ("beta", ⟨none, none, none⟩)]⟩)).1 =
        Except.error (LoadError.configInvalid "beta")
    ∧ (load_config (ConfigSource.parsed ⟨some
      [("alpha", ⟨some "python", some ["srv.py"], none⟩),
       ("beta", ⟨none, none, none⟩)]⟩)).2 =
        [("alpha", ⟨"python", ["srv.py"], none⟩)] :=
  ⟨rfl, rfl⟩

theorem loadEntries_takeWhile :
    ∀ (l : List (String × ServerInfo)) (acc : List (String × StdioServerParameters)),
      (loadEntries l acc).2 =
        (l.takeWhile (fun entry => entry.2.command.isSome)).foldl
          (fun acc entry =>
            match entry.2.command with
            | none => acc
            | some c => dictInsert entry.1 (toParams entry.2 c) acc) acc := by
  intro l
  induction l with
  | nil => intro acc; simp [loadEntries]
  | cons entry rest ih =>
    intro acc
    rcases hc : entry.2.command with _ | c
    · simp [loadEntries, hc, List.takeWhile_cons]
    · simp [loadEntries, hc, List.takeWhile_cons, ih]

/-- C2 (amended): a missing or unparseable configuration source leaves the
descriptor mapping unpopulated, but a missing command field in an entry
leaves the mapping partly populated with exactly the descriptors built
from the longest prefix of entries that carry a command. -/
theorem load_config_population_on_failure :
    ((load_config ConfigSource.missing).2 = []
      ∧ (load_config ConfigSource.malformed).2 = [])
    ∧ ∀ doc : ConfigDoc,
        (load_config (ConfigSource.parsed doc)).2 =
          buildParams ((doc.mcpServers.getD []).takeWhile
            (fun entry => entry.2.command.isSome)) := by
  refine ⟨⟨rfl, rfl⟩, ?_⟩
  intro doc
  simp [load_config, buildParams, loadEntries_takeWhile]

/-- C4: list_all_tools returns the concatenation, in registry iteration
order, of the own tool list of each session in the order that session gave (no
global sorting, no deduplication); a session whose listing errors
contributes zero tools without aborting the others, and an empty registry
yields the empty sequence. -/
theorem list_all_tools_concat :
    (∀ sessions : List (String × SessionBehavior),
      (list_all_tools sessions).1 = (sessions.map toolsOf).flatten)
    ∧ (list_all_tools []).1 = ([] : List Tool) := by
  constructor
  · intro sessions
    simp [list_all_tools, listToolsLoop_fst]
  · rfl

/-- C6: shutdown closes the acquired resources in the exact reverse of
acquisition order — per attempted server the transport was entered first and
then the session, so the last-connected server is torn down first with its
session closed before its transport, including the resources of servers
whose connection attempt never reached Ready. -/
theorem shutdown_reverse_acquisition (env : String → ConnectStage)
    (behav : String → SessionBehavior) (params : List (String × StdioServerParameters)) :
    (shutdown (connect_to_all env behav params)).1 = (acquired env params).reverse
    ∧ (shutdown (connect_to_all env behav params)).1 =
        (params.reverse.map (fun p =>
          match env p.1 with
          | ConnectStage.spawnFail _ => ([] : List Resource)
          | ConnectStage.sessionFail _ => [Resource.transport p.1]
          | ConnectStage.initFail _ => [Resource.cliSession p.1, Resource.transport p.1]
          | ConnectStage.ok => [Resource.cliSession p.1, Resource.transport p.1])).flatten := by
  have hstack := connectLoop_stack env behav params
    { sessions := [], exit_stack := [], warnings := [] }
  constructor
  · simpa [shutdown, connect_to_all] using hstack
  · rw [show (shutdown (connect_to_all env behav params)).1 = (acquired env params).reverse from
      by simpa [shutdown, connect_to_all] using hstack]
    exact acquired_reverse env params

/-- C7: a second shutdown right after a shutdown performs no close action on
any resource and leaves the state unchanged — the exit stack was emptied by
the first call, so re-running shutdown is a no-op and cannot error. -/
theorem shutdown_idempotent (st : ManagerState) :
    shutdown ((shutdown st).2) = ([], (shutdown st).2) := rfl

/-- C1 counterexample: two sessions both advertise tool "t"; forwarding the
call to the first session raises, yet call_tool returns the result of the
second session — the raised error is not propagated to the caller and the call is
forwarded to a later session, so first-match is not call-committing. -/
theorem call_tool_forward_error_counterexample :
    call_tool
      [("s1", ⟨Except.ok [⟨"t", none⟩], fun _ _ => Except.error "remote failure"⟩),
       ("s2", ⟨Except.ok [⟨"t", none⟩], fun _ _ =>
          Except.ok ⟨[ContentBlock.text "from s2"], false⟩⟩)]
      "t" [] =
      (CallOutcome.result ⟨[ContentBlock.text "from s2"], false⟩,
       [checkWarning "s1" "remote failure"]) := by
  rfl

/-- C1 (amended): when forwarding the call to the first session advertising
the tool raises, the exception is caught by the surrounding handler, a
warning naming that server is logged, and the search continues with the
later sessions in registry order — the raised error is not surfaced to the
caller, and a later session advertising the same name receives the call. -/
theorem call_tool_forward_error_fallback (server_name : String) (s : SessionBehavior)
    (rest : List (String × SessionBehavior)) (tool_name : String) (arguments : Args)
    (tools : List Tool) (e : String)
    (h₁ : s.listToolsResult = Except.ok tools)
    (h₂ : tools.any (fun t => t.name == tool_name) = true)
    (h₃ : s.callToolResult tool_name arguments = Except.error e) :
    call_tool ((server_name, s) :: rest) tool_name arguments =
      ((call_tool rest tool_name arguments).1,
       checkWarning server_name e :: (call_tool rest tool_name arguments).2) := by
  show callToolLoop tool_name arguments ((server_name, s) :: rest) [] = _
  simp only [callToolLoop, h₁, h₂, if_true, h₃]
  rw [callToolLoop_acc tool_name arguments rest ([] ++ [checkWarning server_name e])]
  simp [call_tool]

/-- Witness for the amended C1 theorem: a first session that advertises "t"
and raises on the forwarded call, followed by one healthy session. -/
theorem call_tool_forward_error_fallback_witness :
    (⟨Except.ok [⟨"t", none⟩], fun _ _ => Except.error "boom"⟩
        : SessionBehavior).listToolsResult = Except.ok [⟨"t", none⟩]
    ∧ ([(⟨"t", none⟩ : Tool)].any (fun t => t.name == "t") = true)
    ∧ ((⟨Except.ok [⟨"t", none⟩], fun _ _ => Except.error "boom"⟩
        : SessionBehavior).callToolResult "t" [] = Except.error "boom")
    ∧ call_tool
        [("s1", ⟨Except.ok [⟨"t", none⟩], fun _ _ => Except.error "boom"⟩),
         ("s2", ⟨Except.ok [⟨"t", none⟩], fun _ _ =>
            Except.ok ⟨[ContentBlock.text "second"], false⟩⟩)] "t" [] =
      ((call_tool [("s2", ⟨Except.ok [⟨"t", none⟩], fun _ _ =>
            Except.ok ⟨[ContentBlock.text "second"], false⟩⟩)] "t" []).1,
       checkWarning "s1" "boom" :: (call_tool [("s2", ⟨Except.ok [⟨"t", none⟩], fun _ _ =>
            Except.ok ⟨[ContentBlock.text "second"], false⟩⟩)] "t" []).2) :=
  ⟨rfl, by decide,rfl,
   call_tool_forward_error_fallback "s1" _ _ "t" [] [⟨"t", none⟩] "boom" rfl (by decide) rfl⟩

/-- C5: when no tool list of any session contains the requested name (sessions
whose listing raises are treated as not owning it), call_tool exhausts the
registry and raises the ValueError reporting the tool as not found — it
never returns a result, empty or otherwise. -/
theorem call_tool_not_found (sessions : List (String × SessionBehavior))
    (tool_name : String) (arguments : Args)
    (h : ∀ p ∈ sessions, ∀ tools, p.2.listToolsResult = Except.ok tools →
         ∀ t ∈ tools, t.name ≠ tool_name) :
    (call_tool sessions tool_name arguments).1 =
      CallOutcome.toolNotFound
        ("Tool " ++ tool_name ++ " not found on any active server session.") := by
  induction sessions with
  | nil => rfl
  | cons p rest ih =>
    obtain ⟨server_name, session⟩ := p
    have hrest : ∀ q ∈ rest, ∀ tools, q.2.listToolsResult = Except.ok tools →
        ∀ t ∈ tools, t.name ≠ tool_name :=
      fun q hq => h q (List.mem_cons_of_mem _ hq)
    rcases hs : session.listToolsResult with e | tools
    · show (callToolLoop tool_name arguments ((server_name, session) :: rest) []).1 = _
      simp only [callToolLoop, hs]
      rw [callToolLoop_acc tool_name arguments rest ([] ++ [checkWarning server_name e])]
      exact ih hrest
    · have hnone : tools.any (fun t => t.name == tool_name) = false := by
        rw [List.any_eq_false]
        intro t ht
        have := h (server_name, session) (List.mem_cons_self _ _) tools hs t ht
        simpa using this
      show (callToolLoop tool_name arguments ((server_name, session) :: rest) []).1 = _
      simp only [callToolLoop, hs, hnone, Bool.false_eq_true, if_false]
      exact ih hrest

/-- Witness for C5: a one-session registry advertising only "t1", asked for
the tool "nope". -/
theorem call_tool_not_found_witness :
    (call_tool [("s1", ⟨Except.ok [⟨"t1", none⟩], fun _ _ => Except.error "x"⟩)]
        "nope" []).1 =
      CallOutcome.toolNotFound
        ("Tool " ++ "nope" ++ " not found on any active server session.") := by
  apply call_tool_not_found
  intro p hp tools ht t htl
  simp only [List.mem_singleton] at hp
  subst hp
  simp only at ht
  cases ht
  simp only [List.mem_singleton] at htl
  subst htl
  decide

/-- C9: a session whose list_tools query raises during dispatch is warned
about (naming the server) and skipped; the search continues with the
remaining sessions in registry order, treating the unreachable session as
not owning the tool. -/
theorem call_tool_list_error_continues (server_name : String) (s : SessionBehavior)
    (rest : List (String × SessionBehavior)) (tool_name : String) (arguments : Args)
    (e : String) (h : s.listToolsResult = Except.error e) :
    call_tool ((server_name, s) :: rest) tool_name arguments =
      ((call_tool rest tool_name arguments).1,
       checkWarning server_name e :: (call_tool rest tool_name arguments).2) := by
  show callToolLoop tool_name arguments ((server_name, s) :: rest) [] = _
  simp only [callToolLoop, h]
  rw [callToolLoop_acc tool_name arguments rest ([] ++ [checkWarning server_name e])]
  simp [call_tool]

/-- Witness for C9: a registry whose sole session raises on list_tools. -/
theorem call_tool_list_error_continues_witness :
    (⟨Except.error "pipe closed", fun _ _ => Except.error "x"⟩
        : SessionBehavior).listToolsResult = Except.error "pipe closed"
    ∧ call_tool [("s9", ⟨Except.error "pipe closed", fun _ _ => Except.error "x"⟩)]
        "t" [] =
      ((call_tool [] "t" []).1,
       checkWarning "s9" "pipe closed" :: (call_tool [] "t" []).2) :=
  ⟨rfl, call_tool_list_error_continues "s9" _ [] "t" [] "pipe closed" rfl⟩

/-- C3: with unique server names, connect_to_all completes with the registry
containing exactly the successfully connected servers in attempt order —
N − K sessions for K failed descriptors out of N — and one warning per
failure naming the failed server; no failure aborts the remaining attempts,
as every descriptor contributes either a session or a warning. -/
theorem connect_to_all_registry_exact (env : String → ConnectStage)
    (behav : String → SessionBehavior) (params : List (String × StdioServerParameters))
    (h : (params.map Prod.fst).Nodup) :
    (connect_to_all env behav params).sessions =
      (params.filter (fun p => isOkStage (env p.1))).map (fun p => (p.1, behav p.1))
    ∧ (connect_to_all env behav params).sessions.length =
        params.length - (params.filter (fun p => !(isOkStage (env p.1)))).length
    ∧ (connect_to_all env behav params).warnings =
        (params.filter (fun p => !(isOkStage (env p.1)))).map
          (fun p => stageWarning p.1 (env p.1)) := by
  have hsess : (connect_to_all env behav params).sessions =
      (params.filter (fun p => isOkStage (env p.1))).map (fun p => (p.1, behav p.1)) := by
    have := connectLoop_sessions env behav params
      { sessions := [], exit_stack := [], warnings := [] } (by simp) h
    simpa [connect_to_all] using this
  have hwarn : (connect_to_all env behav params).warnings =
      (params.filter (fun p => !(isOkStage (env p.1)))).map
        (fun p => stageWarning p.1 (env p.1)) := by
    have := connectLoop_warnings env behav params
      { sessions := [], exit_stack := [], warnings := [] }
    simpa [connect_to_all] using this
  refine ⟨hsess, ?_, hwarn⟩
  have hlen := List.length_eq_length_filter_add
    (l := params) (fun p => isOkStage (env p.1))
  rw [hsess, List.length_map]
  omega

/-- Witness for C3: three descriptors with distinct names of which the
middle one fails to spawn; the theorem applies with the Nodup hypothesis
discharged by computation. -/
theorem connect_to_all_registry_exact_witness :
    (([("a", ⟨"python", ["a.py"], none⟩), ("b", ⟨"missing-bin", [], none⟩),
       ("c", ⟨"python", ["c.py"], none⟩)]
        : List (String × StdioServerParameters)).map Prod.fst).Nodup
    ∧ ((connect_to_all
          (fun n => if n = "b" then ConnectStage.spawnFail "no such file" else ConnectStage.ok)
          (fun _ => ⟨Except.ok [], fun _ _ => Except.error "x"⟩)
          [("a", ⟨"python", ["a.py"], none⟩), ("b", ⟨"missing-bin", [], none⟩),
           ("c", ⟨"python", ["c.py"], none⟩)]).sessions =
        (([("a", ⟨"python", ["a.py"], none⟩), ("b", ⟨"missing-bin", [], none⟩),
           ("c", ⟨"python", ["c.py"], none⟩)]
            : List (String × StdioServerParameters)).filter
          (fun p => isOkStage (if p.1 = "b" then ConnectStage.spawnFail "no such file"
            else ConnectStage.ok))).map
          (fun p => (p.1, (⟨Except.ok [], fun _ _ => Except.error "x"⟩ : SessionBehavior)))
      ∧ (connect_to_all
          (fun n => if n = "b" then ConnectStage.spawnFail "no such file" else ConnectStage.ok)
          (fun _ => ⟨Except.ok [], fun _ _ => Except.error "x"⟩)
          [("a", ⟨"python", ["a.py"], none⟩), ("b", ⟨"missing-bin", [], none⟩),
           ("c", ⟨"python", ["c.py"], none⟩)]).sessions.length =
        ([("a", ⟨"python", ["a.py"], none⟩), ("b", ⟨"missing-bin", [], none⟩),
          ("c", ⟨"python", ["c.py"], none⟩)]
            : List (String × StdioServerParameters)).length -
          (([("a", ⟨"python", ["a.py"], none⟩), ("b", ⟨"missing-bin", [], none⟩),
             ("c", ⟨"python", ["c.py"], none⟩)]
              : List (String × StdioServerParameters)).filter
            (fun p => !(isOkStage (if p.1 = "b" then ConnectStage.spawnFail "no such file"
              else ConnectStage.ok)))).length
      ∧ (connect_to_all
          (fun n => if n = "b" then ConnectStage.spawnFail "no such file" else ConnectStage.ok)
          (fun _ => ⟨Except.ok [], fun _ _ => Except.error "x"⟩)
          [("a", ⟨"python", ["a.py"], none⟩), ("b", ⟨"missing-bin", [], none⟩),
           ("c", ⟨"python", ["c.py"], none⟩)]).warnings =
        (([("a", ⟨"python", ["a.py"], none⟩), ("b", ⟨"missing-bin", [], none⟩),
           ("c", ⟨"python", ["c.py"], none⟩)]
            : List (String × StdioServerParameters)).filter
          (fun p => !(isOkStage (if p.1 = "b" then ConnectStage.spawnFail "no such file"
            else ConnectStage.ok)))).map
          (fun p => stageWarning p.1 (if p.1 = "b" then ConnectStage.spawnFail "no such file"
            else ConnectStage.ok))) :=
  ⟨by decide,
   connect_to_all_registry_exact
     (fun n => if n = "b" then ConnectStage.spawnFail "no such file" else ConnectStage.ok)
     (fun _ => ⟨Except.ok [], fun _ _ => Except.error "x"⟩)
     [("a", ⟨"python", ["a.py"], none⟩), ("b", ⟨"missing-bin", [], none⟩),
      ("c", ⟨"python", ["c.py"], none⟩)]
     (by decide)⟩
